import Mathlib

/-!
# Verification of the areca-cut trigger-capture-detect-writeback pipeline

Shallow embedding of the core of the repository:

* `Plc` — `plc_manager.py` (`PlcManager`): connect, single-register write,
  multi-register block write, modelled as pure functions over an explicit
  connection flag plus a transport oracle `exec : PlcOp → Bool` that tells
  whether a given `master.execute` call succeeds (an exception in the Python
  code corresponds to `exec op = false`).  Each operation returns its boolean
  result together with the list of transport operations actually issued.
* `vision detector` — `vision_detector.py` (`VisionDetector`): the result
  record and the pure post-processing of the model outputs
  (`_process_obb_result`, `_process_regular_result`,
  `_calculate_rotation_angle`, `detect_betel_nut`), with the external
  OpenCV/YOLO outcomes supplied as explicit inputs.
* `camera worker` — `camera_worker.py` (`CameraWorker._process_trigger`,
  `_write_result_to_plc`, `_write_error_result`): the per-trigger cycle as a
  function producing the trace of transport writes interleaved with the
  capture / detect actions.

Python floats are modelled as rationals (`ℚ`); register values as integers
(`ℤ`).  `int(x)` on a number is truncation toward zero (`truncQ`).
-/

/-- Python `int(x)` applied to a (rational-modelled) float: truncation toward
zero. -/
def truncQ (q : ℚ) : ℤ := if 0 ≤ q then ⌊q⌋ else ⌈q⌉

/-- `clamp_int16` from `CameraWorker._write_result_to_plc`:
`max(-32768, min(32767, value))`. -/
def clamp_int16 (value : ℤ) : ℤ := max (-32768) (min 32767 value)

/-- The fixed-point encoding used by the writeback: scale by 10, truncate
toward zero (Python `int(...)`), then clamp to the signed-16-bit window. -/
def encode10 (q : ℚ) : ℤ := clamp_int16 (truncQ (q * 10))

/-- Reading a fixed-point register value back as a measurement (one decimal
digit): divide by 10. -/
def decode10 (e : ℤ) : ℚ := (e : ℚ) / 10

/-- A transport-level Modbus operation issued through `master.execute`. -/
inductive PlcOp where
  | single (addr : ℤ) (value : ℤ)
  | block (addr : ℤ) (values : List ℤ)
deriving DecidableEq, Repr

namespace Plc

/-- `PlcManager.connect`, as a function of the prior `connected` flag and of
three oracles: whether the modbus library is importable, whether creating the
`TcpMaster` transport succeeds, and whether the probe read of holding
register 0 succeeds.  Returns (return value, new `connected` flag).  Note the
library-unavailable branch returns early without touching the flag. -/
def connect (prevConnected modbusAvailable createOk probeOk : Bool) :
    Bool × Bool :=
  if !modbusAvailable then (false, prevConnected)
  else if !createOk then (false, false)
  else if probeOk then (true, true)
  else (false, false)

/-- `PlcManager.write_single_register`: if not connected, fail with no
transport call; otherwise issue the single-register write and report the
transport outcome.  No range validation of `value` is performed. -/
def write_single_register (connected : Bool) (exec : PlcOp → Bool)
    (address value : ℤ) : Bool × List PlcOp :=
  if !connected then (false, [])
  else
    let op := PlcOp.single address value
    (exec op, [op])

/-- `PlcManager.write_holding_register`: alias of `write_single_register`. -/
def write_holding_register (connected : Bool) (exec : PlcOp → Bool)
    (address value : ℤ) : Bool × List PlcOp :=
  write_single_register connected exec address value

/-- The validation loop of `PlcManager.write_multiple_registers`: walk the
values in order and fail at the first one outside -32768..32767.  (The
`isinstance(val, int)` half of the Python check is vacuous here since values
are modelled as `ℤ`.) -/
def checkValues : List ℤ → Bool
  | [] => true
  | v :: rest => if v < -32768 ∨ 32767 < v then false else checkValues rest

/-- `PlcManager.write_multiple_registers`: if not connected, fail; validate
every value before issuing anything; on validation failure return `false`
with no transport call; otherwise issue one block write. -/
def write_multiple_registers (connected : Bool) (exec : PlcOp → Bool)
    (address : ℤ) (values : List ℤ) : Bool × List PlcOp :=
  if !connected then (false, [])
  else if checkValues values then
    let op := PlcOp.block address values
    (exec op, [op])
  else (false, [])

end Plc

/-- `DetectionResult` from `vision_detector.py` (the dataclass under `src/`):
measurements, classification (1 = unidentified, 2 = cuttable, 3 = reserved),
confidence, and the optional box coordinates (4 values for an axis-aligned
box, 8 values for the four OBB corner points) and center pixel. -/
structure DetectionResult where
  x_offset : ℚ
  y_offset : ℚ
  r_angle : ℚ
  height : ℚ
  classification : ℤ
  confidence : ℚ
  box_coords : Option (List ℚ) := none
  center_point : Option (ℚ × ℚ) := none
deriving DecidableEq, Repr

/-- The `DetectionResult(0, 0, 0, 0, 1, 0.0)` value returned on the
no-detection and internal-failure paths. -/
def unidentifiedResult : DetectionResult :=
  { x_offset := 0, y_offset := 0, r_angle := 0, height := 0
    classification := 1, confidence := 0 }

/-- Rational approximation of pi used to model `math.degrees`; the float
conversion factor 180/pi is irrational, so the embedding fixes a rational
stand-in.  Every theorem below that touches an angle either uses rotation 0
(where the conversion is exact) or an inequality with ample slack. -/
def piQ : ℚ := 3.141592653589793

/-- Model of `math.degrees`: radians to degrees. -/
def degreesQ (r : ℚ) : ℚ := r * 180 / piQ

/-- One oriented bounding box from the YOLO OBB output: the `xywhr` data
(center, width, height, rotation in radians), confidence, class id, and the
flattened `xyxyxyxy` corner list. -/
structure ObbBox where
  cx : ℚ
  cy : ℚ
  w : ℚ
  h : ℚ
  rot : ℚ
  conf : ℚ
  cls : ℤ
  corners : List ℚ
deriving DecidableEq, Repr

/-- One axis-aligned box from the regular YOLO output. -/
structure Box where
  x1 : ℚ
  y1 : ℚ
  x2 : ℚ
  y2 : ℚ
  conf : ℚ
  cls : ℤ
deriving DecidableEq, Repr

/-- `np.argmax` over a list of confidences: index of the first maximum. -/
def argmaxAux : List ℚ → ℕ → ℕ → ℚ → ℕ
  | [], _, best, _ => best
  | x :: rest, i, best, bv =>
      if bv < x then argmaxAux rest (i + 1) i x
      else argmaxAux rest (i + 1) best bv

/-- Index of the first maximal element (0 on the empty list). -/
def argmaxIdx : List ℚ → ℕ
  | [] => 0
  | x :: rest => argmaxAux rest 1 0 x

/-- `VisionDetector._process_obb_result`: pick the highest-confidence OBB,
compute offsets from the image center scaled by `pixel_to_mm`, convert the
rotation to degrees (no further normalization), scale the box height, and
classify 2 exactly when the class id is 0 with confidence above 0.5, else 1. -/
def process_obb_result (boxes : List ObbBox) (imgW imgH : ℚ)
    (pixel_to_mm : ℚ) : DetectionResult :=
  match boxes with
  | [] => unidentifiedResult
  | b0 :: _ =>
    let idx := argmaxIdx (boxes.map (fun b => b.conf))
    let b := boxes.getD idx b0
    let x_offset := (b.cx - imgW / 2) * pixel_to_mm
    let y_offset := (b.cy - imgH / 2) * pixel_to_mm
    let r_angle := degreesQ b.rot
    let height_mm := b.h * pixel_to_mm
    let classification : ℤ := if b.cls = 0 ∧ 1 / 2 < b.conf then 2 else 1
    { x_offset := x_offset, y_offset := y_offset, r_angle := r_angle
      height := height_mm, classification := classification
      confidence := b.conf, box_coords := some b.corners
      center_point := some (b.cx, b.cy) }

/-- Outcome of the OpenCV contour/ellipse analysis inside
`VisionDetector._calculate_rotation_angle`, supplied as an explicit input:
empty ROI, no contours, a fitted ellipse angle (contour of at least 5
points), a minimum-area-rectangle angle (smaller contour), or an exception
somewhere in the routine. -/
inductive FitOutcome where
  | emptyRoi
  | noContours
  | ellipse (angle : ℚ)
  | minRect (angle : ℚ)
  | fail
deriving DecidableEq, Repr

/-- `VisionDetector._calculate_rotation_angle`: 0 on the degenerate and
exception paths; the ellipse angle folded once by 180 degrees when outside
(-90, 90]; the raw rectangle angle on the fallback path. -/
def calculate_rotation_angle (outcome : FitOutcome) : ℚ :=
  match outcome with
  | .emptyRoi => 0
  | .noContours => 0
  | .ellipse a => if a > 90 then a - 180 else if a < -90 then a + 180 else a
  | .minRect a => a
  | .fail => 0

/-- `VisionDetector._process_regular_result`: pick the highest-confidence
box, compute the box center and its offset from the image center scaled by
`pixel_to_mm`, compute the angle via `_calculate_rotation_angle` (whose
OpenCV outcome is the `fit` input), scale the box height, and classify:
2 when class id 0 with confidence above 0.5, 1 when class id 1, else 3. -/
def process_regular_result (boxes : List Box) (fit : FitOutcome)
    (imgW imgH : ℚ) (pixel_to_mm : ℚ) : DetectionResult :=
  match boxes with
  | [] => unidentifiedResult
  | b0 :: _ =>
    let idx := argmaxIdx (boxes.map (fun b => b.conf))
    let b := boxes.getD idx b0
    let center_x := (b.x1 + b.x2) / 2
    let center_y := (b.y1 + b.y2) / 2
    let x_offset := (center_x - imgW / 2) * pixel_to_mm
    let y_offset := (center_y - imgH / 2) * pixel_to_mm
    let r_angle := calculate_rotation_angle fit
    let height_mm := (b.y2 - b.y1) * pixel_to_mm
    let classification : ℤ :=
      if b.cls = 0 ∧ 1 / 2 < b.conf then 2
      else if b.cls = 1 then 1
      else 3
    { x_offset := x_offset, y_offset := y_offset, r_angle := r_angle
      height := height_mm, classification := classification
      confidence := b.conf
      box_coords := some [b.x1, b.y1, b.x2, b.y2]
      center_point := some (center_x, center_y) }

/-- Outcome of the YOLO inference step inside `detect_betel_nut`, supplied
as an explicit input: an exception anywhere in the guarded block, an OBB
result list, or a regular result list together with the OpenCV outcome that
`_calculate_rotation_angle` will see. -/
inductive InferenceOutcome where
  | failure
  | obbBoxes (boxes : List ObbBox)
  | regularBoxes (boxes : List Box) (fit : FitOutcome)
deriving DecidableEq, Repr

/-- `VisionDetector.detect_betel_nut`: mock mode returns the mock result;
otherwise the guarded block dispatches on the inference outcome, and any
exception degrades to `DetectionResult(0, 0, 0, 0, 1, 0.0)`. -/
def detect_betel_nut (useMock : Bool) (mockResult : DetectionResult)
    (outcome : InferenceOutcome) (imgW imgH : ℚ) (pixel_to_mm : ℚ) :
    DetectionResult :=
  if useMock then mockResult
  else
    match outcome with
    | .failure => unidentifiedResult
    | .obbBoxes boxes => process_obb_result boxes imgW imgH pixel_to_mm
    | .regularBoxes boxes fit =>
        process_regular_result boxes fit imgW imgH pixel_to_mm

/-- The registers of one station used by the writeback and handshake
(`camera_config['registers']`); the block of six values is written starting
at `x_offset`. -/
structure RegisterMap where
  trigger : ℤ
  classAddr : ℤ
  x_offset : ℤ
deriving DecidableEq, Repr

/-- Modelled from the spec: the DetectionResult of the geometric-detector
variant (spec section 3).  Its fields `headDirection` and `length` are read
by `CameraWorker._write_result_to_plc` and by the result panel in
`main_window.py`, but the detector that produces them coexists under the
same file name outside `src/` (spec section 9); the dataclass under
`src/vision_detector.py` lacks both fields.  Only the fields the writeback
reads are modelled. -/
structure GeoDetectionResult where
  x_offset : ℚ
  y_offset : ℚ
  r_angle : ℚ
  height : ℚ
  length : ℚ
  head_direction : ℤ
  classification : ℤ
  confidence : ℚ
deriving DecidableEq, Repr

/-- The six register values of the coordinate block, in write order:
`[x_int, y_int, r_int, h_int, head_int, l_int]` — measurements scaled by 10,
truncated and clamped, the head direction passed through `int(...)`
unscaled and unclamped. -/
def result_values (r : GeoDetectionResult) : List ℤ :=
  [encode10 r.x_offset, encode10 r.y_offset, encode10 r.r_angle,
   encode10 r.height, r.head_direction, encode10 r.length]

/-- `CameraWorker._write_result_to_plc`: write the classification register;
on write failure return; if the classification is CUTTABLE (2), issue the
six-value block write starting at the `x_offset` register (its outcome is
only logged).  Returns the list of transport operations issued. -/
def write_result_to_plc (regs : RegisterMap) (connected : Bool)
    (exec : PlcOp → Bool) (r : GeoDetectionResult) : List PlcOp :=
  let w1 := Plc.write_holding_register connected exec regs.classAddr
    r.classification
  if !w1.1 then w1.2
  else if r.classification = 2 then
    w1.2 ++
      (Plc.write_multiple_registers connected exec regs.x_offset
        (result_values r)).2
  else w1.2

/-- `CameraWorker._write_error_result`: write UNKNOWN (1) to the
classification register, ignoring the outcome. -/
def write_error_result (regs : RegisterMap) (connected : Bool)
    (exec : PlcOp → Bool) : List PlcOp :=
  (Plc.write_holding_register connected exec regs.classAddr 1).2

/-- One observable step of a trigger cycle: a transport write, the capture
attempt, or the detector invocation. -/
inductive CycleEvent where
  | write (op : PlcOp)
  | captureAttempt
  | detect
deriving DecidableEq, Repr

/-- `CameraWorker._process_trigger`: write PROCESSING (127) to the trigger
register (abort on failure); capture (on a `none` image, emit the error
result and return); write IMAGE_READY (128) to the trigger register (abort
on failure); run the detector; write the result back.  Returns the trace of
events in execution order.  The image type and the detector are abstract
(`detectFn` stands for `detect_and_draw`). -/
def process_trigger {α : Type} (regs : RegisterMap) (connected : Bool)
    (exec : PlcOp → Bool) (captureResult : Option α)
    (detectFn : α → GeoDetectionResult) : List CycleEvent :=
  let w1 := Plc.write_holding_register connected exec regs.trigger 127
  let e1 := w1.2.map CycleEvent.write
  if !w1.1 then e1
  else
    match captureResult with
    | none =>
        (e1 ++ [CycleEvent.captureAttempt]) ++
          (write_error_result regs connected exec).map CycleEvent.write
    | some img =>
        let e2 := e1 ++ [CycleEvent.captureAttempt]
        let w3 := Plc.write_holding_register connected exec regs.trigger 128
        let e3 := e2 ++ w3.2.map CycleEvent.write
        if !w3.1 then e3
        else
          (e3 ++ [CycleEvent.detect]) ++
            (write_result_to_plc regs connected exec
              (detectFn img)).map CycleEvent.write

/-- One iteration of the polling loop in `CameraWorker.run`: the trigger
register is read (its outcome is `triggerRead`, `none` for a failed read)
and `_process_trigger` runs exactly when the value READY (10) was
observed. -/
def poll_iteration {α : Type} (regs : RegisterMap) (connected : Bool)
    (exec : PlcOp → Bool) (triggerRead : Option ℤ)
    (captureResult : Option α) (detectFn : α → GeoDetectionResult) :
    List CycleEvent :=
  match triggerRead with
  | some 10 => process_trigger regs connected exec captureResult detectFn
  | _ => []

/-! ## Helper lemmas -/

/-- The validation loop of the block write succeeds exactly when every value
is inside the signed-16-bit window. -/
theorem checkValues_eq_true_iff (values : List ℤ) :
    Plc.checkValues values = true ↔
      ∀ v ∈ values, -32768 ≤ v ∧ v ≤ 32767 := by
  induction values with
  | nil => simp [Plc.checkValues]
  | cons v rest ih =>
      by_cases h : v < -32768 ∨ 32767 < v
      · simp only [Plc.checkValues, if_pos h, List.mem_cons]
        constructor
        · intro hf
          exact Bool.noConfusion hf
        · intro hall
          rcases hall v (Or.inl rfl) with ⟨h1, h2⟩
          omega
      · simp only [Plc.checkValues, if_neg h, ih, List.mem_cons]
        push_neg at h
        constructor
        · rintro hall w (rfl | hw)
          · exact ⟨h.1, h.2⟩
          · exact hall w hw
        · intro hall w hw
          exact hall w (Or.inr hw)

/-- Evaluation of `truncQ` on nonnegative inputs. -/
theorem truncQ_eq_floor (q : ℚ) (n : ℤ) (h0 : 0 ≤ q) (h1 : (n : ℚ) ≤ q)
    (h2 : q < n + 1) : truncQ q = n := by
  rw [truncQ, if_pos h0, Int.floor_eq_iff]
  exact ⟨h1, by exact_mod_cast h2⟩

/-- Evaluation of `truncQ` on negative inputs. -/
theorem truncQ_eq_ceil (q : ℚ) (n : ℤ) (h0 : ¬ 0 ≤ q) (h1 : (n : ℚ) - 1 < q)
    (h2 : q ≤ n) : truncQ q = n := by
  rw [truncQ, if_neg h0, Int.ceil_eq_iff]
  exact ⟨by exact_mod_cast h1, by exact_mod_cast h2⟩

/-- The clamp keeps its output inside the signed-16-bit window. -/
theorem clamp_int16_bounds (v : ℤ) :
    -32768 ≤ clamp_int16 v ∧ clamp_int16 v ≤ 32767 := by
  unfold clamp_int16
  omega

/-- The clamp is the identity inside the signed-16-bit window. -/
theorem clamp_int16_of_bounds (v : ℤ) (h1 : -32768 ≤ v) (h2 : v ≤ 32767) :
    clamp_int16 v = v := by
  unfold clamp_int16
  omega

/-! ## Claims -/

/-- C9: the single-register write performs no range validation: for every
integer value, connected means the value is forwarded unchanged in one
transport write whose outcome is the returned boolean, and disconnected
means failure with no transport write; the classification and trigger writes
go through `write_holding_register`, which is exactly
`write_single_register`. -/
theorem single_write_unvalidated (exec : PlcOp → Bool) (address value : ℤ) :
    Plc.write_single_register true exec address value
        = (exec (PlcOp.single address value), [PlcOp.single address value]) ∧
    Plc.write_single_register false exec address value = (false, []) ∧
    (∀ connected : Bool,
      Plc.write_holding_register connected exec address value
        = Plc.write_single_register connected exec address value) :=
  ⟨rfl, rfl, fun _ => rfl⟩

/-- C10: starting from a disconnected manager, `connect` returns true and
sets the connected flag exactly when the modbus library is available, the
transport is created, and the probe read of register 0 succeeds; on every
failure path both the return value and the flag are false. -/
theorem connect_true_iff_probe (modbusAvailable createOk probeOk : Bool) :
    Plc.connect false modbusAvailable createOk probeOk
      = (modbusAvailable && createOk && probeOk,
         modbusAvailable && createOk && probeOk) := by
  cases modbusAvailable <;> cases createOk <;> cases probeOk <;> rfl

/-- C2: the block write is all-or-nothing: when any value lies outside
-32768..32767 it returns false and issues no transport operation; when
connected and every value is in range it issues exactly one block write of
the whole list, returning the transport outcome. -/
theorem block_write_all_or_nothing (connected : Bool) (exec : PlcOp → Bool)
    (address : ℤ) (values : List ℤ) :
    ((∃ v ∈ values, v < -32768 ∨ 32767 < v) →
      Plc.write_multiple_registers connected exec address values
        = (false, [])) ∧
    (connected = true → (∀ v ∈ values, -32768 ≤ v ∧ v ≤ 32767) →
      Plc.write_multiple_registers connected exec address values
        = (exec (PlcOp.block address values),
           [PlcOp.block address values])) := by
  constructor
  · intro hbad
    have hc : Plc.checkValues values = false := by
      rcases Bool.eq_false_or_eq_true (Plc.checkValues values) with h | h
      · rcases hbad with ⟨v, hv, hout⟩
        rcases (checkValues_eq_true_iff values).mp h v hv with ⟨ha, hb⟩
        omega
      · exact h
    cases connected
    · rfl
    · simp [Plc.write_multiple_registers, hc]
  · intro hconn hall
    subst hconn
    have hc : Plc.checkValues values = true :=
      (checkValues_eq_true_iff values).mpr hall
    simp [Plc.write_multiple_registers, hc]

/-- Witness for C2 at concrete inputs: a block containing 40000 is rejected
with no transport write, and an in-range block is issued as one block
write. -/
theorem block_write_all_or_nothing_witness :
    Plc.write_multiple_registers true (fun _ => true) 102 [5, 40000]
        = (false, []) ∧
    Plc.write_multiple_registers true (fun _ => true) 102 [5, -5]
        = (true, [PlcOp.block 102 [5, -5]]) := by
  constructor
  · exact (block_write_all_or_nothing true (fun _ => true) 102 [5, 40000]).1
      ⟨40000, by simp, by norm_num⟩
  · have h := (block_write_all_or_nothing true (fun _ => true) 102 [5, -5]).2
      rfl (by intro v hv; simp at hv; rcases hv with rfl | rfl <;> omega)
    simpa using h

/-- C8: `detect_betel_nut` in real (non-mock) mode returns exactly one
result for every inference outcome, and an internal failure (an exception in
the guarded block) degrades to classification 1 with confidence 0 and all
fields at their zero defaults. -/
theorem detect_total_and_degrades (mockResult : DetectionResult)
    (outcome : InferenceOutcome) (imgW imgH pixel_to_mm : ℚ) :
    (∃! r : DetectionResult,
        detect_betel_nut false mockResult outcome imgW imgH pixel_to_mm = r) ∧
    detect_betel_nut false mockResult .failure imgW imgH pixel_to_mm
      = { x_offset := 0, y_offset := 0, r_angle := 0, height := 0
          classification := 1, confidence := 0
          box_coords := none, center_point := none } :=
  ⟨⟨_, rfl, fun _ hy => hy.symm⟩, rfl⟩

/-- C3 (amended): the all-zero invariant holds on the no-detection paths —
an empty OBB list, an empty regular box list, or an internal failure all
yield the literal `DetectionResult(0, 0, 0, 0, 1, 0.0)` with absent polygon
and center. -/
theorem unidentified_zero_on_no_detection (imgW imgH pixel_to_mm : ℚ)
    (fit : FitOutcome) (mockResult : DetectionResult) :
    process_obb_result [] imgW imgH pixel_to_mm = unidentifiedResult ∧
    process_regular_result [] fit imgW imgH pixel_to_mm
      = unidentifiedResult ∧
    detect_betel_nut false mockResult .failure imgW imgH pixel_to_mm
      = unidentifiedResult ∧
    unidentifiedResult.x_offset = 0 ∧ unidentifiedResult.y_offset = 0 ∧
    unidentifiedResult.r_angle = 0 ∧ unidentifiedResult.height = 0 ∧
    unidentifiedResult.classification = 1 ∧
    unidentifiedResult.box_coords = none ∧
    unidentifiedResult.center_point = none :=
  ⟨rfl, rfl, rfl, rfl, rfl, rfl, rfl, rfl, rfl, rfl⟩

/-- Counterexample to C3 as stated: a detected OBB of class id 1 with
confidence 0.9 is classified Unidentified (1) yet carries a nonzero x
offset, a nonzero height, and a present polygon and center. -/
theorem unidentified_nonzero_fields_cex :
    let r := process_obb_result
      [⟨600, 400, 100, 50, 0, 9/10, 1, [1, 2, 3, 4, 5, 6, 7, 8]⟩]
      1000 800 (1/10)
    r.classification = 1 ∧ r.x_offset ≠ 0 ∧ r.height ≠ 0 ∧
    r.box_coords ≠ none ∧ r.center_point ≠ none := by
  simp only [process_obb_result, argmaxIdx, argmaxAux, List.map, List.getD,
    degreesQ, piQ]
  norm_num
  exact ⟨fun h => Option.noConfusion h, fun h => Option.noConfusion h⟩

/-- C4 (amended): the folding in `_calculate_rotation_angle` puts the
reported angle in (-90, 90] whenever the fitted ellipse angle lies in
[0, 180), the range OpenCV ellipse fitting produces; the OBB path performs
no such normalization (see the counterexample). -/
theorem rotation_angle_fold_range (boxes : List Box) (a : ℚ)
    (imgW imgH pixel_to_mm : ℚ) (h0 : 0 ≤ a) (h1 : a < 180) :
    -90 < (process_regular_result boxes (.ellipse a) imgW imgH
        pixel_to_mm).r_angle ∧
    (process_regular_result boxes (.ellipse a) imgW imgH
        pixel_to_mm).r_angle ≤ 90 := by
  have hfold : -90 < calculate_rotation_angle (.ellipse a) ∧
      calculate_rotation_angle (.ellipse a) ≤ 90 := by
    simp only [calculate_rotation_angle]
    split_ifs with hgt hlt
    · constructor <;> linarith
    · constructor <;> linarith
    · push_neg at hgt
      constructor <;> linarith
  cases boxes with
  | nil =>
      simp only [process_regular_result, unidentifiedResult]
      norm_num
  | cons b0 rest =>
      simpa only [process_regular_result] using hfold

/-- Witness for the amended C4 at the concrete ellipse angle 135, folded to
-45. -/
theorem rotation_angle_fold_range_witness :
    -90 < (process_regular_result [] (.ellipse 135) 1000 800
        (1/10)).r_angle ∧
    (process_regular_result [] (.ellipse 135) 1000 800 (1/10)).r_angle
      ≤ 90 :=
  rotation_angle_fold_range [] 135 1000 800 (1/10) (by norm_num)
    (by norm_num)

/-- Counterexample to C4 as stated: the OBB path reports
`math.degrees(rotation)` with no normalization, so a rotation of 2 radians
(about 114.6 degrees) produces a result whose rotation angle is outside
(-90, 90]. -/
theorem rotation_angle_range_cex :
    let r := process_obb_result
      [⟨600, 400, 100, 50, 2, 9/10, 0, [1, 2, 3, 4, 5, 6, 7, 8]⟩]
      1000 800 (1/10)
    ¬ (-90 < r.r_angle ∧ r.r_angle ≤ 90) := by
  simp only [process_obb_result, argmaxIdx, argmaxAux, List.map, List.getD,
    degreesQ, piQ]
  norm_num

/-- C5: when the capture source returns no image (after a successful
PROCESSING handshake write), the cycle issues exactly the trigger write 127
followed by a single classification write of 1; in particular no block
write — and no write to any register other than trigger and classification —
occurs, and the cycle ends (the worker resumes polling). -/
theorem capture_failure_cycle {α : Type} (regs : RegisterMap)
    (exec : PlcOp → Bool) (detectFn : α → GeoDetectionResult)
    (hproc : exec (PlcOp.single regs.trigger 127) = true) :
    process_trigger regs true exec (none : Option α) detectFn
      = [CycleEvent.write (PlcOp.single regs.trigger 127),
         CycleEvent.captureAttempt,
         CycleEvent.write (PlcOp.single regs.classAddr 1)] ∧
    (∀ a vs, CycleEvent.write (PlcOp.block a vs)
        ∉ process_trigger regs true exec (none : Option α) detectFn) := by
  have htrace : process_trigger regs true exec (none : Option α) detectFn
      = [CycleEvent.write (PlcOp.single regs.trigger 127),
         CycleEvent.captureAttempt,
         CycleEvent.write (PlcOp.single regs.classAddr 1)] := by
    simp [process_trigger, write_error_result, Plc.write_holding_register,
      Plc.write_single_register, hproc]
  refine ⟨htrace, ?_⟩
  intro a vs hmem
  rw [htrace] at hmem
  simp at hmem

/-- Witness for C5 at a concrete register map with an always-successful
transport. -/
theorem capture_failure_cycle_witness :
    process_trigger ⟨100, 101, 102⟩ true (fun _ => true)
        (none : Option Unit) (fun _ => ⟨0, 0, 0, 0, 0, 0, 2, 1⟩)
      = [CycleEvent.write (PlcOp.single 100 127),
         CycleEvent.captureAttempt,
         CycleEvent.write (PlcOp.single 101 1)] :=
  (capture_failure_cycle ⟨100, 101, 102⟩ (fun _ => true)
    (fun _ => ⟨0, 0, 0, 0, 0, 0, 2, 1⟩) rfl).1

/-- C6: a cycle started by observing READY (10) issues exactly, in order:
PROCESSING (127) to the trigger register; on success the capture attempt;
IMAGE_READY (128) to the trigger register; on success the detector runs and
the writeback issues the classification write and then, exactly when the
classification is 2 and the classification write succeeded, the six-value
block write.  A failed 127 write aborts before any capture; a failed 128
write aborts before detection and before any classification write. -/
theorem trigger_cycle_order {α : Type} (regs : RegisterMap)
    (exec : PlcOp → Bool) (img : α) (detectFn : α → GeoDetectionResult) :
    poll_iteration regs true exec (some 10) (some img) detectFn
      = (if exec (PlcOp.single regs.trigger 127) = false then
          [CycleEvent.write (PlcOp.single regs.trigger 127)]
         else if exec (PlcOp.single regs.trigger 128) = false then
          [CycleEvent.write (PlcOp.single regs.trigger 127),
           CycleEvent.captureAttempt,
           CycleEvent.write (PlcOp.single regs.trigger 128)]
         else
          [CycleEvent.write (PlcOp.single regs.trigger 127),
           CycleEvent.captureAttempt,
           CycleEvent.write (PlcOp.single regs.trigger 128),
           CycleEvent.detect] ++
          (write_result_to_plc regs true exec (detectFn img)).map
            CycleEvent.write) ∧
    (∀ r : GeoDetectionResult, write_result_to_plc regs true exec r
        = if exec (PlcOp.single regs.classAddr r.classification) = false then
            [PlcOp.single regs.classAddr r.classification]
          else if r.classification = 2 then
            PlcOp.single regs.classAddr r.classification ::
              (Plc.write_multiple_registers true exec regs.x_offset
                (result_values r)).2
          else [PlcOp.single regs.classAddr r.classification]) ∧
    poll_iteration regs true exec (some 0) (some img) detectFn = [] := by
  refine ⟨?_, ?_, rfl⟩
  · cases h127 : exec (PlcOp.single regs.trigger 127) with
    | false =>
        simp [poll_iteration, process_trigger, Plc.write_holding_register,
          Plc.write_single_register, h127]
    | true =>
        cases h128 : exec (PlcOp.single regs.trigger 128) with
        | false =>
            simp [poll_iteration, process_trigger,
              Plc.write_holding_register, Plc.write_single_register,
              h127, h128]
        | true =>
            simp [poll_iteration, process_trigger,
              Plc.write_holding_register, Plc.write_single_register,
              h127, h128]
  · intro r
    by_cases h2 : r.classification = 2
    · cases hc : exec (PlcOp.single regs.classAddr 2) <;>
        simp [write_result_to_plc, Plc.write_holding_register,
          Plc.write_single_register, h2, hc]
    · cases hc : exec (PlcOp.single regs.classAddr r.classification) <;>
        simp [write_result_to_plc, Plc.write_holding_register,
          Plc.write_single_register, h2, hc]

/-- C1: for a result classified CUTTABLE (2) whose head direction is one of
0/1/2, the writeback issues the classification write first and then one
six-value block write starting at the `x_offset` register, each measurement
scaled by 10, truncated toward zero and clamped to -32768..32767, with the
head direction passed through as a plain unscaled integer. -/
theorem cuttable_writeback (regs : RegisterMap) (exec : PlcOp → Bool)
    (r : GeoDetectionResult) (hcls : r.classification = 2)
    (hhead : r.head_direction = 0 ∨ r.head_direction = 1 ∨
      r.head_direction = 2)
    (hexec : exec (PlcOp.single regs.classAddr 2) = true) :
    write_result_to_plc regs true exec r
      = [PlcOp.single regs.classAddr 2,
         PlcOp.block regs.x_offset
           [clamp_int16 (truncQ (r.x_offset * 10)),
            clamp_int16 (truncQ (r.y_offset * 10)),
            clamp_int16 (truncQ (r.r_angle * 10)),
            clamp_int16 (truncQ (r.height * 10)),
            r.head_direction,
            clamp_int16 (truncQ (r.length * 10))]] := by
  have hcheck : Plc.checkValues (result_values r) = true := by
    refine (checkValues_eq_true_iff (result_values r)).mpr ?_
    intro v hv
    simp only [result_values, encode10, List.mem_cons, List.mem_singleton,
      List.not_mem_nil, or_false] at hv
    rcases hv with rfl | rfl | rfl | rfl | rfl | rfl
    · exact clamp_int16_bounds _
    · exact clamp_int16_bounds _
    · exact clamp_int16_bounds _
    · exact clamp_int16_bounds _
    · rcases hhead with h | h | h <;> rw [h] <;> omega
    · exact clamp_int16_bounds _
  have hres : result_values r
      = [clamp_int16 (truncQ (r.x_offset * 10)),
         clamp_int16 (truncQ (r.y_offset * 10)),
         clamp_int16 (truncQ (r.r_angle * 10)),
         clamp_int16 (truncQ (r.height * 10)),
         r.head_direction,
         clamp_int16 (truncQ (r.length * 10))] := by
    simp [result_values, encode10]
  rw [hres] at hcheck
  simp [write_result_to_plc, Plc.write_holding_register,
    Plc.write_single_register, Plc.write_multiple_registers, hcls, hexec,
    hres, hcheck]

/-- Witness for C1 at a concrete result: measurements 12.3, -4.5, 3.5, 25
encode to 123, -45, 35, 250; the length 5000 overflows after scaling and
clamps to 32767; the head direction 1 passes through unscaled. -/
theorem cuttable_writeback_witness :
    write_result_to_plc ⟨100, 101, 102⟩ true (fun _ => true)
        ⟨123/10, -45/10, 7/2, 25, 5000, 1, 2, 9/10⟩
      = [PlcOp.single 101 2,
         PlcOp.block 102 [123, -45, 35, 250, 1, 32767]] := by
  have h := cuttable_writeback ⟨100, 101, 102⟩ (fun _ => true)
    ⟨123/10, -45/10, 7/2, 25, 5000, 1, 2, 9/10⟩ rfl (Or.inr (Or.inl rfl))
    rfl
  rw [h]
  norm_num only
  rw [truncQ_eq_floor (123 : ℚ) 123 (by norm_num) (by norm_num)
        (by norm_num),
      truncQ_eq_ceil (-45 : ℚ) (-45) (by norm_num) (by norm_num)
        (by norm_num),
      truncQ_eq_floor (35 : ℚ) 35 (by norm_num) (by norm_num)
        (by norm_num),
      truncQ_eq_floor (250 : ℚ) 250 (by norm_num) (by norm_num)
        (by norm_num),
      truncQ_eq_floor (50000 : ℚ) 50000 (by norm_num) (by norm_num)
        (by norm_num)]
  decide

/-- C7 (amended): the fixed-point encoding round-trips to within 0.1 for
measurements of magnitude at most 3276.7; above 3276.7 it encodes to the
upper clamp limit 32767; below -3276.7 it encodes to -32767 while the scaled
value still fits (strictly between -3276.8 and -3276.7) and to the lower
clamp limit -32768 from -3276.8 downward. -/
theorem fixed_point_encoding (v : ℚ) :
    (|v| ≤ 32767/10 → |decode10 (encode10 v) - v| ≤ 1/10) ∧
    (32767/10 < v → encode10 v = 32767) ∧
    (v < -(32767/10) →
      encode10 v = if -(32768/10) < v then -32767 else -32768) := by
  refine ⟨?_, ?_, ?_⟩
  · intro hb
    rcases abs_le.mp hb with ⟨hl, hr⟩
    by_cases h0 : 0 ≤ v * 10
    · set t := ⌊v * 10⌋ with ht
      have ht1 : (t : ℚ) ≤ v * 10 := Int.floor_le _
      have ht2 : v * 10 < t + 1 := Int.lt_floor_add_one _
      have htl : (0 : ℤ) ≤ t := Int.le_floor.mpr (by exact_mod_cast h0)
      have htu : t ≤ 32767 := by
        have h32 : (t : ℚ) ≤ 32767 := le_trans ht1 (by linarith)
        exact_mod_cast h32
      rw [encode10, truncQ, if_pos h0, ← ht,
        clamp_int16_of_bounds t (by omega) htu, decode10, abs_le]
      constructor <;> linarith
    · set t := ⌈v * 10⌉ with ht
      have ht1 : v * 10 ≤ (t : ℚ) := Int.le_ceil _
      have ht2 : (t : ℚ) < v * 10 + 1 := Int.ceil_lt_add_one _
      have htu : t ≤ 0 := Int.ceil_le.mpr (by push_neg at h0; push_cast; linarith)
      have htl : -32767 ≤ t := by
        have h32 : (-32767 : ℚ) ≤ (t : ℚ) := le_trans (by linarith) ht1
        exact_mod_cast h32
      rw [encode10, truncQ, if_neg h0, ← ht,
        clamp_int16_of_bounds t (by omega) (by omega), decode10, abs_le]
      constructor <;> linarith
  · intro hv
    have h0 : 0 ≤ v * 10 := by linarith
    have hge : (32767 : ℤ) ≤ ⌊v * 10⌋ := Int.le_floor.mpr (by push_cast; linarith)
    rw [encode10, truncQ, if_pos h0]
    unfold clamp_int16
    omega
  · intro hv
    have h0 : ¬ 0 ≤ v * 10 := by
      push_neg
      nlinarith
    by_cases hmid : -(32768/10 : ℚ) < v
    · have hceil : ⌈v * 10⌉ = -32767 := by
        rw [Int.ceil_eq_iff]
        constructor
        · push_cast
          linarith
        · push_cast
          linarith
      rw [encode10, truncQ, if_neg h0, hceil, if_pos hmid]
      decide
    · push_neg at hmid
      have hle : ⌈v * 10⌉ ≤ -32768 := Int.ceil_le.mpr (by push_cast; linarith)
      rw [encode10, truncQ, if_neg h0, if_neg (by push_neg; exact hmid)]
      unfold clamp_int16
      omega

/-- Witness for the amended C7: 3300 is beyond the positive precision
ceiling and encodes to 32767. -/
theorem fixed_point_encoding_witness :
    (32767 : ℚ)/10 < 3300 ∧ encode10 3300 = 32767 :=
  ⟨by norm_num, (fixed_point_encoding 3300).2.1 (by norm_num)⟩

/-- Counterexample to C7 as stated: -3277 lies beyond the precision bound
yet encodes to the lower clamp limit -32768, which is neither 32767 nor
-32767. -/
theorem fixed_point_encoding_cex :
    (-3277 : ℚ) < -(32767/10) ∧ encode10 (-3277) = -32768 ∧
    encode10 (-3277) ≠ 32767 ∧ encode10 (-3277) ≠ -32767 := by
  have he : encode10 (-3277) = -32768 := by
    rw [encode10, truncQ_eq_ceil ((-3277 : ℚ) * 10) (-32770) (by norm_num)
      (by norm_num) (by norm_num)]
    decide
  exact ⟨by norm_num, he, by rw [he]; decide, by rw [he]; decide⟩
